import Mathlib

/-!
# Verification of the AD.Mathematics C++ GLM library against its specification

Shallow embedding of the C++ sources under `src/cpp/`:
vectors of doubles become `List ℝ`, thrown `std::out_of_range` errors become
`Except Err`, and the floating-point arithmetic is modelled exactly over `ℝ`
(`log`, `exp`, `sqrt` are `Real.log`, `Real.exp`, `Real.sqrt`).
-/

open Real (pi)

/-- The error taxonomy of the specification, mapped onto the distinct
`std::out_of_range` messages thrown by the C++ code:
`DimensionMismatch` ↔ "Argument vectors differ in length.",
`EmptyInput` ↔ "Argument vector is empty.",
`DomainError` ↔ "Scale must be greater than zero." / "Argument range: [0, 170]." -/
inductive Err where
  | DimensionMismatch
  | EmptyInput
  | DomainError
  deriving DecidableEq, Repr

/-- Vectors of doubles (`std::vector<double>`), modelled exactly over ℝ. -/
abbrev Vec := List ℝ

/-- `DBL_EPSILON` = 2⁻⁵², the value of `std::numeric_limits<double>::epsilon()`. -/
noncomputable def doubleEpsilon : ℝ := 1 / 2 ^ 52

namespace IdentityLinkFunction

/-- `IdentityLinkFunction::Evaluate`: returns a copy of the input vector. -/
def Evaluate (x : Vec) : Vec := x

/-- `IdentityLinkFunction::Inverse`: maps each element `y` to `1.0 / y`. -/
noncomputable def Inverse (x : Vec) : Vec := x.map (fun y => 1 / y)

/-- `IdentityLinkFunction::FirstDerivative`: a vector of `x.size()` ones. -/
def FirstDerivative (x : Vec) : Vec := List.replicate x.length 1

/-- `IdentityLinkFunction::SecondDerivative`: a vector of `x.size()` zeros. -/
def SecondDerivative (x : Vec) : Vec := List.replicate x.length 0

end IdentityLinkFunction

namespace LogLinkFunction

/-- `LogLinkFunction::Evaluate`: element-wise `log`. -/
noncomputable def Evaluate (x : Vec) : Vec := x.map Real.log

/-- `LogLinkFunction::Inverse`: element-wise `exp`. -/
noncomputable def Inverse (x : Vec) : Vec := x.map Real.exp

/-- `LogLinkFunction::FirstDerivative`: element-wise `1.0 / y`. -/
noncomputable def FirstDerivative (x : Vec) : Vec := x.map (fun y => 1 / y)

/-- `LogLinkFunction::SecondDerivative`: element-wise `-1.0 / pow(y, 2)`. -/
noncomputable def SecondDerivative (x : Vec) : Vec := x.map (fun y => -1 / y ^ 2)

end LogLinkFunction

/-- The closed variant of `ILinkFunction` implementations present in the
repository (`IdentityLinkFunction`, `LogLinkFunction`), used for the virtual
dispatch through the `_link` member owned by each distribution. -/
inductive LinkFunction where
  | identity
  | log
  deriving DecidableEq, Repr

namespace LinkFunction

/-- Virtual dispatch of `ILinkFunction::FirstDerivative`. -/
noncomputable def FirstDerivative : LinkFunction → Vec → Vec
  | .identity, x => IdentityLinkFunction.FirstDerivative x
  | .log, x => LogLinkFunction.FirstDerivative x

/-- The scalar first derivative of each link, for element-wise reasoning. -/
noncomputable def d1 : LinkFunction → ℝ → ℝ
  | .identity, _ => 1
  | .log, y => 1 / y

end LinkFunction

namespace GaussianDistribution

/-- The member state fixed by `GaussianDistribution::GaussianDistribution(mean,
standardDeviation, link)`; `_link` defaults to `IdentityLinkFunction` when the
caller passes `nullptr`. `_maximum`/`_minimum` hold
`std::numeric_limits<double>::max()`/`::min()`, modelled by their exact values
`(2^53 − 1)·2^971` and `2^(−1022)`. -/
structure State where
  entropy : ℝ
  kurtosis : ℝ
  maximum : ℝ
  mean : ℝ
  median : ℝ
  minimum : ℝ
  mode : ℝ
  skewness : ℝ
  standardDeviation : ℝ
  variance : ℝ
  link : LinkFunction

/-- The `GaussianDistribution` constructor: `none` for the link models passing
`nullptr`, which selects `IdentityLinkFunction`. -/
noncomputable def construct (mean standardDeviation : ℝ)
    (link : Option LinkFunction) : State where
  entropy := 0.5 * (1 + Real.log (2 * pi * standardDeviation * standardDeviation))
  kurtosis := 0
  maximum := (2 ^ 53 - 1) * 2 ^ 971
  mean := mean
  median := mean
  minimum := 1 / 2 ^ 1022
  mode := mean
  skewness := 0
  standardDeviation := standardDeviation
  variance := standardDeviation * standardDeviation
  link := link.getD .identity

/-- `GaussianDistribution::Deviance`: validates the vector lengths and the
scale, then sums `*r * pow(*r - *m, 2)` over `response`/`meanResponse` and
divides by `scale`. The multiplier of each squared residual is the response
entry `*r`; the `weights` vector is validated but never read in the loop. -/
noncomputable def Deviance (response meanResponse weights : Vec)
    (scale : ℝ) : Except Err ℝ :=
  if response.length ≠ meanResponse.length ∨ response.length ≠ weights.length then
    .error .DimensionMismatch
  else if scale ≤ 0 then
    .error .DomainError
  else
    .ok ((List.zipWith (fun r m => r * (r - m) ^ 2) response meanResponse).sum / scale)

/-- `GaussianDistribution::Probability`: `1.0 / sqrt(M_PI * 2.0) *
exp(-0.5 * pow(x, 2))` — the member state is never read. -/
noncomputable def Probability (_d : State) (x : ℝ) : ℝ :=
  1 / Real.sqrt (pi * 2) * Real.exp (-0.5 * x ^ 2)

/-- `GaussianDistribution::LogProbability`: `log(Probability(x))`. -/
noncomputable def LogProbability (d : State) (x : ℝ) : ℝ :=
  Real.log (Probability d x)

/-- `GaussianDistribution::Weight`: computes `_link->FirstDerivative(meanResponse)`
and maps each derivative `x` to `(1.0 / Variance()) * pow(x, 2)`. -/
noncomputable def Weight (d : State) (meanResponse : Vec) : Vec :=
  (d.link.FirstDerivative meanResponse).map (fun x => 1 / d.variance * x ^ 2)

end GaussianDistribution

namespace PoissonDistribution

/-- The member state fixed by `PoissonDistribution::PoissonDistribution(mean,
link)`; `_link` defaults to `LogLinkFunction` when the caller passes `nullptr`. -/
structure State where
  entropy : ℝ
  kurtosis : ℝ
  maximum : ℝ
  mean : ℝ
  median : ℝ
  minimum : ℝ
  mode : ℝ
  skewness : ℝ
  standardDeviation : ℝ
  variance : ℝ
  link : LinkFunction

/-- The `PoissonDistribution` constructor: `none` for the link models passing
`nullptr`, which selects `LogLinkFunction`. -/
noncomputable def construct (mean : ℝ) (link : Option LinkFunction) : State where
  entropy := 0.5 * Real.log (2 * pi * Real.exp 1 * mean)
    - 1 / (12 * mean) - 1 / (24 * mean * mean) - 19 / (360 * mean * mean * mean)
  kurtosis := 1 / mean
  maximum := (2 ^ 53 - 1) * 2 ^ 971
  mean := mean
  median := ⌊mean + 1 / 3 - 0.02 / mean⌋
  minimum := 0
  mode := ⌊mean⌋
  skewness := 1 / Real.sqrt mean
  standardDeviation := Real.sqrt mean
  variance := mean
  link := link.getD .log

/-- `PoissonDistribution::Deviance`: validates the vector lengths (but not the
scale), then sums `*w * (*r * d - *r - *m)` where
`d = log(*r <= 0 ? DBL_EPSILON : *r / *m)`, and returns `2.0 * result / scale`. -/
noncomputable def Deviance (response meanResponse weights : Vec)
    (scale : ℝ) : Except Err ℝ :=
  if response.length ≠ meanResponse.length ∨ response.length ≠ weights.length then
    .error .DimensionMismatch
  else
    .ok (2 * (List.zipWith3
      (fun w r m => w * (r * Real.log (if r ≤ 0 then doubleEpsilon else r / m) - r - m))
      weights response meanResponse).sum / scale)

/-- `PoissonDistribution::Weight`: takes `std::abs` of each mean-response entry,
evaluates `_link->FirstDerivative` on the absolute values, then overwrites each
entry with `1.0 / (*d * *d * *w)`. -/
noncomputable def Weight (d : State) (meanResponse : Vec) : Vec :=
  let weight := meanResponse.map (fun x => |x|)
  let derivative := d.link.FirstDerivative weight
  List.zipWith (fun w dv => 1 / (dv * dv * w)) weight derivative

end PoissonDistribution

/-- `Prepend::operator()(source, value)` from `Matrix/Prepend.h`: the range-for
`for (std::vector<T> row : source)` binds each row BY VALUE, so
`row.insert(row.begin(), value)` mutates a discarded copy; the per-iteration
copies are recorded in the unused `let` and the unmodified `source` is
returned. -/
def prepend {α : Type} (source : List (List α)) (value : α) : List (List α) :=
  let _insertedCopies := source.map (fun row => value :: row)
  source

/-- `Append::operator()(source, value)` from `Matrix/Append.h`: same by-value
iteration as `Prepend`, so `source` is returned unchanged. -/
def append {α : Type} (source : List (List α)) (value : α) : List (List α) :=
  let _appendedCopies := source.map (fun row => row ++ [value])
  source

namespace GeneralizedLinearModel

/-- The member state of a constructed `GeneralizedLinearModel`. -/
structure State where
  observationCount : ℕ
  variableCount : ℕ
  designArray : List (List ℝ)
  coefficients : Vec
  sumSquaredErrors : ℝ

/-- The `GeneralizedLinearModel` constructor: throws the "Argument vectors
differ in length." `std::out_of_range` when `design.size() != response.size()`
or `design` is empty (one combined check); the `weights` argument is accepted
but never examined. On success, `_observationCount = design[0].size()`,
`_variableCount = design.size()`, the design array is `prepend(design, 1.0)`
when `addConstant` is requested, and `_coefficients` is left empty. -/
noncomputable def construct (design : List (List ℝ)) (response _weights : Vec)
    (addConstant : Bool) : Except Err State :=
  if design.length ≠ response.length ∨ design = [] then
    .error .DimensionMismatch
  else
    .ok { observationCount := (design.headD []).length
          variableCount := design.length
          designArray := if addConstant then prepend design 1 else design
          coefficients := []
          sumSquaredErrors := 0 }

/-- `GeneralizedLinearModel::Evaluate`: sums `_coefficients[i] * observation[i]`
for `i < observation.size()` with no length validation; when the observation is
longer than the coefficient vector the C++ indexes `_coefficients` out of
bounds (undefined behavior), modelled as `none`. -/
noncomputable def Evaluate (coefficients observation : Vec) : Option ℝ :=
  if observation.length ≤ coefficients.length then
    some (List.zipWith (· * ·) coefficients observation).sum
  else
    none

end GeneralizedLinearModel

namespace FactorialCache

/-- The member state of `SpecialFunctions::Factorial` (`Factorial.h`): the two
lazily grown caches `_cacheFactorial` and `_cacheLogFactorial`. -/
structure State where
  fac : List ℝ
  logFac : List ℝ

/-- The `Factorial` constructor: `_cacheFactorial = {1.0}`,
`_cacheLogFactorial = {0.0}`. -/
noncomputable def init : State := ⟨[1], [0]⟩

/-- One iteration of the growth loop in `Factorial::Get`: at loop index
`i = ` current size, pushes `_cacheFactorial[i - 1] * i`. -/
noncomputable def facPush (f : List ℝ) : List ℝ :=
  f ++ [f.getD (f.length - 1) 0 * (f.length : ℝ)]

/-- `Factorial::Get(x)`: domain check `[0, 170]`; on a cache hit returns
`x == 0 ? 0.0 : _cacheFactorial[x]`; otherwise runs the growth loop
`for (i = start; i < start + x; i++)` (exactly `x` pushes) and returns
`_cacheFactorial[x]`. -/
noncomputable def Get (s : State) (x : ℕ) : Except Err (ℝ × State) :=
  if x > 170 then
    .error .DomainError
  else if x < s.fac.length then
    .ok (if x = 0 then 0 else s.fac.getD x 0, s)
  else
    let newFac := facPush^[x] s.fac
    .ok (newFac.getD x 0, ⟨newFac, s.logFac⟩)

/-- One iteration of the growth loop in `Factorial::GetLog`: pushes
`log(Get(x))` — the log of the factorial of the REQUESTED index `x`, not of the
loop index — threading the factorial cache mutated by the nested `Get` call. -/
noncomputable def logPushStep (x : ℕ) (s : State) : State :=
  match Get s x with
  | .ok (v, s') => ⟨s'.fac, s'.logFac ++ [Real.log v]⟩
  | .error _ => s

/-- `Factorial::GetLog(x)`: domain check `(0, 170]`; on a cache hit returns
`_cacheLogFactorial[x]`; otherwise runs the growth loop (exactly `x` pushes of
`log(Get(x))`) and returns `_cacheLogFactorial[x]`. -/
noncomputable def GetLog (s : State) (x : ℕ) : Except Err (ℝ × State) :=
  if x = 0 ∨ x > 170 then
    .error .DomainError
  else if x < s.logFac.length then
    .ok (if x = 0 then 0 else s.logFac.getD x 0, s)
  else
    let s' := (logPushStep x)^[x] s
    .ok (s'.logFac.getD x 0, s')

end FactorialCache

/-- The cache state produced by calling `GetLog(7)` on a freshly constructed
`Factorial`: the factorial cache holds `0!..7!`, while the log cache holds the
initial `0.0` followed by seven copies of `log(5040)` — the growth loop of
`GetLog` pushes `log(Get(x))` for the requested `x = 7` at every index. -/
noncomputable def afterGetLog7 : FactorialCache.State :=
  ⟨[1, 1, 2, 6, 24, 120, 720, 5040], 0 :: List.replicate 7 (Real.log 5040)⟩

/-! ## Helper lemmas -/

/-- A `zipWith` sum over two double vectors as an indexed sum, truncated at the
shorter length. -/
theorem sum_zipWith_getD (f : ℝ → ℝ → ℝ) :
    ∀ as bs : Vec, (List.zipWith f as bs).sum
      = ∑ i ∈ Finset.range (min as.length bs.length), f (as.getD i 0) (bs.getD i 0) := by
  intro as
  induction as with
  | nil => intro bs; simp
  | cons a as ih =>
    intro bs
    cases bs with
    | nil => simp
    | cons b bs =>
      simp only [List.zipWith_cons_cons, List.sum_cons, List.length_cons,
        Nat.succ_min_succ, Finset.sum_range_succ']
      rw [ih]
      simp only [List.getD_cons_succ, List.getD_cons_zero]
      ring

/-- `getD` commutes with `map` when the function fixes the default. -/
theorem getD_map (f : ℝ → ℝ) (hf : f 0 = 0) (x : Vec) (i : ℕ) :
    (x.map f).getD i 0 = f (x.getD i 0) := by
  rcases Nat.lt_or_ge i x.length with h | h
  · rw [List.getD_eq_getElem _ _ (by simpa using h), List.getD_eq_getElem _ _ h,
      List.getElem_map]
  · rw [List.getD_eq_default _ _ (by simpa using h), List.getD_eq_default _ _ h, hf]

/-- Element-wise reading of the vector `FirstDerivative` of either link. -/
theorem firstDerivative_getD (link : LinkFunction) (x : Vec) (i : ℕ)
    (h : i < x.length) :
    (link.FirstDerivative x).getD i 0 = link.d1 (x.getD i 0) := by
  cases link
  · rw [LinkFunction.FirstDerivative, IdentityLinkFunction.FirstDerivative,
      List.getD_eq_getElem _ _ (by simpa using h)]
    simp [LinkFunction.d1]
  · rw [LinkFunction.FirstDerivative, LogLinkFunction.FirstDerivative]
    exact getD_map _ (by norm_num) x i

/-- The vector `FirstDerivative` of either link preserves length. -/
theorem firstDerivative_length (link : LinkFunction) (x : Vec) :
    (link.FirstDerivative x).length = x.length := by
  cases link <;>
    simp [LinkFunction.FirstDerivative, IdentityLinkFunction.FirstDerivative,
      LogLinkFunction.FirstDerivative]

/-! ## Claim theorems -/

/-- C6: for the Identity link function, `Evaluate` returns its input sequence
unchanged, while `Inverse` maps each element `x` to the reciprocal `1 / x`
rather than to `x` (witnessed at the input `[2]`, where the output is `[1/2]`). -/
theorem identityLink_evaluate_id_inverse_reciprocal :
    (∀ x : Vec, IdentityLinkFunction.Evaluate x = x)
    ∧ (∀ (x : Vec) (i : ℕ), (IdentityLinkFunction.Inverse x).getD i 0 = 1 / x.getD i 0)
    ∧ IdentityLinkFunction.Inverse [2] ≠ [2] := by
  refine ⟨fun _ => rfl, fun x i => ?_, ?_⟩
  · rw [IdentityLinkFunction.Inverse]
    exact getD_map _ (by norm_num) x i
  · rw [IdentityLinkFunction.Inverse]
    norm_num

/-- C10: the Gaussian `Probability` evaluates the standard-normal density
`(1/√(2π))·exp(−x²/2)` whatever the constructor parameters were:
the stored mean, standard deviation, and link never enter `Probability` or
`LogProbability`. -/
theorem gaussianProbability_ignores_parameters :
    ∀ (μ σ x : ℝ) (link : Option LinkFunction), 0 < σ →
      GaussianDistribution.Probability (GaussianDistribution.construct μ σ link) x
          = 1 / Real.sqrt (2 * pi) * Real.exp (-(x ^ 2) / 2)
      ∧ GaussianDistribution.Probability (GaussianDistribution.construct μ σ link) x
          = GaussianDistribution.Probability (GaussianDistribution.construct 0 1 none) x
      ∧ GaussianDistribution.LogProbability (GaussianDistribution.construct μ σ link) x
          = GaussianDistribution.LogProbability (GaussianDistribution.construct 0 1 none) x := by
  intro μ σ x link _
  refine ⟨?_, rfl, rfl⟩
  rw [GaussianDistribution.Probability, show pi * 2 = 2 * pi from by ring,
    show -0.5 * x ^ 2 = -(x ^ 2) / 2 from by ring]

/-- C3: `prepend(m, v)` returns a matrix equal to `m` — the range-for copies
each row by value before the insert — so a `GeneralizedLinearModel` constructed
with `addConstant = true` stores a design array identical to the caller-supplied
design, with no intercept column of `1.0` added. -/
theorem prepend_leaves_design_unchanged :
    ∀ (m : List (List ℝ)) (v : ℝ) (response weights : Vec)
      (glm : GeneralizedLinearModel.State),
      prepend m v = m
      ∧ (GeneralizedLinearModel.construct m response weights true = .ok glm →
          glm.designArray = m) := by
  intro m v response weights glm
  refine ⟨rfl, fun h => ?_⟩
  rw [GeneralizedLinearModel.construct] at h
  split at h
  · cases h
  · injection h with h2
    subst h2
    rfl

/-- Witness for C3 at the design `[[1, 2]]`, response `[5]`, weights `[7]`. -/
theorem prepend_leaves_design_unchanged_witness :
    GeneralizedLinearModel.construct [[1, 2]] [5] [7] true
        = .ok ⟨2, 1, [[1, 2]], [], 0⟩
    ∧ (⟨2, 1, [[1, 2]], [], 0⟩ : GeneralizedLinearModel.State).designArray
        = [[1, 2]] := by
  have h : GeneralizedLinearModel.construct [[1, 2]] [5] [7] true
      = .ok ⟨2, 1, [[1, 2]], [], 0⟩ := by
    rw [GeneralizedLinearModel.construct]
    norm_num [prepend]
  exact ⟨h, (prepend_leaves_design_unchanged [[1, 2]] 1 [5] [7]
    ⟨2, 1, [[1, 2]], [], 0⟩).2 h⟩

/-- C1 counterexample: at response `[2]`, mean response `[0]`, weights `[3]`,
scale `1`, the Gaussian `Deviance` returns `2·(2−0)² = 8`, not the weighted sum
`Σ wᵢ(rᵢ−mᵢ)²/scale = 3·(2−0)²/1 = 12` the claim states: the loop multiplies
each squared residual by the response entry, never by the weight. -/
theorem gaussianDeviance_weights_cex :
    GaussianDistribution.Deviance [2] [0] [3] 1 = .ok 8
    ∧ (8 : ℝ) ≠ 3 * (2 - 0) ^ 2 / 1 := by
  constructor
  · rw [GaussianDistribution.Deviance]
    norm_num
  · norm_num

/-- C1 amended: for equal-length vectors and positive scale, the Gaussian
`Deviance` returns `Σ rᵢ(rᵢ−mᵢ)²/scale` — each squared residual is multiplied
by the response entry `rᵢ`, not by the weight `wᵢ`; the weights vector is
validated for length and then ignored. -/
theorem gaussianDeviance_response_weighted :
    ∀ (r m w : Vec) (scale : ℝ), r.length = m.length → r.length = w.length →
      0 < scale →
      GaussianDistribution.Deviance r m w scale
        = .ok ((∑ i ∈ Finset.range r.length,
            r.getD i 0 * (r.getD i 0 - m.getD i 0) ^ 2) / scale) := by
  intro r m w scale h1 h2 h3
  rw [GaussianDistribution.Deviance, if_neg (by omega), if_neg (by linarith),
    sum_zipWith_getD]
  rw [← h1, min_self]

/-- Witness for C1 amended at response `[2]`, mean `[0]`, weights `[3]`,
scale `1`. -/
theorem gaussianDeviance_response_weighted_witness :
    List.length [(2 : ℝ)] = List.length [(0 : ℝ)]
    ∧ List.length [(2 : ℝ)] = List.length [(3 : ℝ)]
    ∧ (0 : ℝ) < 1
    ∧ GaussianDistribution.Deviance [2] [0] [3] 1
        = .ok ((∑ i ∈ Finset.range (List.length [(2 : ℝ)]),
            List.getD [(2 : ℝ)] i 0
              * (List.getD [(2 : ℝ)] i 0 - List.getD [(0 : ℝ)] i 0) ^ 2) / 1) :=
  ⟨by norm_num, by norm_num, by norm_num,
    gaussianDeviance_response_weighted [2] [0] [3] 1 (by norm_num) (by norm_num)
      (by norm_num)⟩

/-- C2: at response `[1]`, mean response `[1]`, weights `[1]`, scale `1`, the
Poisson `Deviance` of the code returns `2·(1·ln 1 − 1 − 1)/1 = −4`, while the
claimed (and statistically standard) formula `2·Σ wᵢ(rᵢ·ln(rᵢ/mᵢ) − rᵢ + mᵢ)/scale`
gives `0`: the loop body subtracts `*m` instead of adding it, a sign slip that
makes the deviance of a perfect fit negative. -/
theorem poissonDeviance_sign_flip_eval :
    PoissonDistribution.Deviance [1] [1] [1] 1 = .ok (-4)
    ∧ 2 * ((1 : ℝ) * Real.log (1 / 1) - 1 + 1) / 1 = 0 := by
  constructor
  · rw [PoissonDistribution.Deviance]
    norm_num [List.zipWith3, Real.log_one]
  · norm_num [Real.log_one]

/-- C8 counterexample: the Poisson `Deviance` never validates the scale: at
response `[1]`, mean response `[1]`, weights `[1]` and the non-positive scale
`−1` it returns `2·(−2)/(−1) = 4` instead of failing with `DomainError` as the
claim states. -/
theorem poissonDeviance_scale_unchecked_cex :
    (-1 : ℝ) ≤ 0
    ∧ PoissonDistribution.Deviance [1] [1] [1] (-1) = .ok 4 := by
  constructor
  · norm_num
  · rw [PoissonDistribution.Deviance]
    norm_num [List.zipWith3, Real.log_one]

/-- C8 amended: both `Deviance` implementations fail with `DimensionMismatch`
when the three vector lengths are not all equal, before computing any sum; but
only the Gaussian one fails with `DomainError` when `scale ≤ 0` — the Poisson
one performs no scale check and always returns a value on length-matched
input. -/
theorem deviance_validation :
    ∀ (r m w : Vec) (scale : ℝ),
      (r.length ≠ m.length ∨ r.length ≠ w.length →
        GaussianDistribution.Deviance r m w scale = .error .DimensionMismatch
        ∧ PoissonDistribution.Deviance r m w scale = .error .DimensionMismatch)
      ∧ (r.length = m.length → r.length = w.length → scale ≤ 0 →
        GaussianDistribution.Deviance r m w scale = .error .DomainError)
      ∧ (r.length = m.length → r.length = w.length →
        (PoissonDistribution.Deviance r m w scale).isOk = true) := by
  intro r m w scale
  refine ⟨fun h => ?_, fun h1 h2 h3 => ?_, fun h1 h2 => ?_⟩
  · rw [GaussianDistribution.Deviance, if_pos h, PoissonDistribution.Deviance,
      if_pos h]
    exact ⟨rfl, rfl⟩
  · rw [GaussianDistribution.Deviance, if_neg (by omega), if_pos h3]
  · rw [PoissonDistribution.Deviance, if_neg (by omega)]
    rfl

/-- Witness for C8 amended at response `[1]`, mean `[1]`, weights `[1]`,
scale `0`: the Gaussian call fails with `DomainError` while the Poisson call
succeeds. -/
theorem deviance_validation_witness :
    GaussianDistribution.Deviance [1] [1] [1] 0 = .error .DomainError
    ∧ (PoissonDistribution.Deviance [1] [1] [1] 0).isOk = true :=
  ⟨(deviance_validation [1] [1] [1] 0).2.1 rfl rfl (by norm_num),
    (deviance_validation [1] [1] [1] 0).2.2 rfl rfl⟩

/-- `getD` distributes over `zipWith` inside both ranges. -/
theorem getD_zipWith (f : ℝ → ℝ → ℝ) (as bs : Vec) (i : ℕ)
    (h1 : i < as.length) (h2 : i < bs.length) :
    (List.zipWith f as bs).getD i 0 = f (as.getD i 0) (bs.getD i 0) := by
  rw [List.getD_eq_getElem _ _ (by simp [List.length_zipWith]; omega),
    List.getD_eq_getElem _ _ h1, List.getD_eq_getElem _ _ h2]
  exact List.getElem_zipWith

/-- C5 counterexample: at design `[[1]]`, response `[1]`, and EMPTY weights the
lengths are not all equal, yet `GeneralizedLinearModel` construction succeeds:
the constructor compares only `design.size()` with `response.size()` and never
examines the weights vector. -/
theorem glm_construct_weights_unchecked_cex :
    List.length ([] : Vec) ≠ List.length [(1 : ℝ)]
    ∧ (GeneralizedLinearModel.construct [[1]] [1] [] false).isOk = true := by
  constructor
  · norm_num
  · rw [GeneralizedLinearModel.construct]
    norm_num [Except.isOk, Except.toBool]

/-- C5 amended: construction fails — always with the `DimensionMismatch` error
(the message "Argument vectors differ in length."), not a distinct `EmptyInput`
— exactly when the design row count differs from the response length or the
design is empty; the weights length is never validated, so a weights-only
mismatch constructs successfully. -/
theorem glm_construct_validation :
    ∀ (design : List (List ℝ)) (response weights : Vec) (addConstant : Bool),
      (GeneralizedLinearModel.construct design response weights addConstant
          = .error .DimensionMismatch
        ↔ design.length ≠ response.length ∨ design = [])
      ∧ ((GeneralizedLinearModel.construct design response weights addConstant).isOk
          = true
        ↔ design.length = response.length ∧ design ≠ []) := by
  intro design response weights addConstant
  rw [GeneralizedLinearModel.construct]
  split
  next h =>
    have hn : ¬(design.length = response.length ∧ design ≠ []) := by
      rcases h with h | h
      · exact fun hc => h hc.1
      · exact fun hc => hc.2 h
    simp [Except.isOk, Except.toBool, hn, h]
  next h =>
    push_neg at h
    simp [Except.isOk, Except.toBool, h.1, h.2]

/-- C9 counterexample: with stored coefficients `[1, 2]` and the shorter
observation `[3]` the lengths differ, yet `Evaluate` raises no
`DimensionMismatch` and returns the partial dot product `1·3 = 3`. -/
theorem glm_evaluate_no_length_check_cex :
    List.length [(3 : ℝ)] ≠ List.length [(1 : ℝ), 2]
    ∧ GeneralizedLinearModel.Evaluate [1, 2] [3] = some 3 := by
  constructor
  · norm_num
  · rw [GeneralizedLinearModel.Evaluate]
    norm_num

/-- C9 amended: `Evaluate` performs no length validation: it returns the dot
product truncated at the observation length whenever the observation is no
longer than the coefficient vector, and indexes the coefficient vector out of
bounds (undefined behavior, modelled as `none`) whenever the observation is
longer. -/
theorem glm_evaluate_partial_dot_product :
    ∀ coefficients observation : Vec,
      (observation.length ≤ coefficients.length →
        GeneralizedLinearModel.Evaluate coefficients observation
          = some (∑ i ∈ Finset.range observation.length,
              coefficients.getD i 0 * observation.getD i 0))
      ∧ (coefficients.length < observation.length →
        GeneralizedLinearModel.Evaluate coefficients observation = none) := by
  intro c o
  constructor
  · intro h
    rw [GeneralizedLinearModel.Evaluate, if_pos h, sum_zipWith_getD,
      min_eq_right h]
  · intro h
    rw [GeneralizedLinearModel.Evaluate, if_neg (by omega)]

/-- Witness for C9 amended at coefficients `[2, 3]`, observation `[4]`. -/
theorem glm_evaluate_partial_dot_product_witness :
    List.length [(4 : ℝ)] ≤ List.length [(2 : ℝ), 3]
    ∧ GeneralizedLinearModel.Evaluate [2, 3] [4]
        = some (∑ i ∈ Finset.range (List.length [(4 : ℝ)]),
            List.getD [(2 : ℝ), 3] i 0 * List.getD [(4 : ℝ)] i 0) :=
  ⟨by norm_num, (glm_evaluate_partial_dot_product [2, 3] [4]).1 (by norm_num)⟩

/-- C7 counterexample: a `GaussianDistribution` with σ = 1 and the Log link, at
mean response `[2]`: the code returns `(1/σ²)·link′(2)² = (1/2)² = 1/4`, while
the claimed IRLS weight `1/(link′(2)²·Var) = 1/((1/2)²·1)` is `4` — the
Gaussian `Weight` multiplies by the squared link derivative instead of dividing
by it. -/
theorem gaussianWeight_formula_cex :
    GaussianDistribution.Weight
        (GaussianDistribution.construct 0 1 (some .log)) [2] = [1 / 4]
    ∧ (1 : ℝ) / 4 ≠ 1 / ((1 / 2) ^ 2 * 1) := by
  constructor
  · rw [GaussianDistribution.Weight]
    norm_num [GaussianDistribution.construct, LinkFunction.FirstDerivative,
      LogLinkFunction.FirstDerivative]
  · norm_num

/-- C7 amended: element-wise, the Poisson `Weight` is the claimed IRLS working
weight evaluated at the absolute mean response, `1/(link′(|μᵢ|)²·|μᵢ|)`, but
the Gaussian `Weight` is `link′(μᵢ)²/σ²`: the squared link derivative
multiplies instead of divides (the two agree for the default Identity link,
whose derivative is constantly 1). -/
theorem distribution_weight_formulas :
    ∀ (glink plink : LinkFunction) (μ σ lam : ℝ) (mr : Vec) (i : ℕ),
      i < mr.length →
      (GaussianDistribution.Weight
          (GaussianDistribution.construct μ σ (some glink)) mr).getD i 0
        = glink.d1 (mr.getD i 0) ^ 2 / σ ^ 2
      ∧ (PoissonDistribution.Weight
          (PoissonDistribution.construct lam (some plink)) mr).getD i 0
        = 1 / (plink.d1 |mr.getD i 0| ^ 2 * |mr.getD i 0|) := by
  intro glink plink μ σ lam mr i h
  constructor
  · rw [GaussianDistribution.Weight, getD_map _ (by norm_num) _ i]
    show (1 : ℝ) / _ * ((LinkFunction.FirstDerivative _ mr).getD i 0) ^ 2 = _
    rw [show (GaussianDistribution.construct μ σ (some glink)).link = glink from rfl,
      show (GaussianDistribution.construct μ σ (some glink)).variance = σ * σ from rfl,
      firstDerivative_getD _ _ _ h]
    ring
  · rw [PoissonDistribution.Weight]
    show (List.zipWith _ (mr.map _) _).getD i 0 = _
    rw [getD_zipWith _ _ _ i (by simpa using h)
        (by rw [firstDerivative_length]; simpa using h),
      getD_map _ (by norm_num) _ i,
      show (PoissonDistribution.construct lam (some plink)).link = plink from rfl,
      firstDerivative_getD _ _ _ (by simpa using h),
      getD_map _ (by norm_num) _ i]
    ring

/-- Witness for C7 amended with the Identity link on both distributions,
σ = 1, λ = 1, mean response `[2]`, index 0. -/
theorem distribution_weight_formulas_witness :
    (0 : ℕ) < List.length [(2 : ℝ)]
    ∧ (GaussianDistribution.Weight
          (GaussianDistribution.construct 0 1 (some .identity)) [2]).getD 0 0
        = LinkFunction.d1 .identity (List.getD [(2 : ℝ)] 0 0) ^ 2 / 1 ^ 2
    ∧ (PoissonDistribution.Weight
          (PoissonDistribution.construct 1 (some .identity)) [2]).getD 0 0
        = 1 / (LinkFunction.d1 .identity |List.getD [(2 : ℝ)] 0 0| ^ 2
            * |List.getD [(2 : ℝ)] 0 0|) :=
  ⟨by norm_num,
    (distribution_weight_formulas .identity .identity 0 1 1 [2] 0 (by norm_num)).1,
    (distribution_weight_formulas .identity .identity 0 1 1 [2] 0 (by norm_num)).2⟩

/-- On a fresh cache, one `GetLog(7)` loop iteration fills the factorial cache
up to `7!` and pushes `log(5040)` onto the log cache. -/
theorem factorialCache_logPushStep_init :
    FactorialCache.logPushStep 7 ⟨[1], [0]⟩
      = ⟨[1, 1, 2, 6, 24, 120, 720, 5040], [0, Real.log 5040]⟩ := by
  norm_num [FactorialCache.logPushStep, FactorialCache.Get,
    Function.iterate_succ_apply, FactorialCache.facPush]

/-- Once the factorial cache holds `0!..7!`, every further `GetLog(7)` loop
iteration appends another copy of `log(5040)` to the log cache. -/
theorem factorialCache_logPushStep_again (L : List ℝ) :
    FactorialCache.logPushStep 7 ⟨[1, 1, 2, 6, 24, 120, 720, 5040], L⟩
      = ⟨[1, 1, 2, 6, 24, 120, 720, 5040], L ++ [Real.log 5040]⟩ := by
  norm_num [FactorialCache.logPushStep, FactorialCache.Get]

/-- `GetLog(7)` on a fresh cache returns `log(5040)` and leaves the log cache
holding `log(5040)` at every index from 1 to 7. -/
theorem factorialCache_getLog_seven :
    FactorialCache.GetLog FactorialCache.init 7 = .ok (Real.log 5040, afterGetLog7) := by
  rw [FactorialCache.GetLog]
  norm_num [FactorialCache.init, afterGetLog7]
  simp only [factorialCache_logPushStep_init, factorialCache_logPushStep_again]
  norm_num [List.replicate_succ]

/-- C4: two reachable cache states violate the claimed values. On the freshly
constructed cache, `Get(0)` returns `0.0` — not `1.0` = 0! — because the cache
hit branch returns `x == 0 ? 0.0 : _cacheFactorial[x]`. And after a prior
`GetLog(7)` call, `GetLog(5)` returns the stale `log(5040)` instead of
`log(120)`: the `GetLog` growth loop pushes `log(Get(x))` for the requested
`x` at every index it fills, poisoning indices 1..6. -/
theorem factorialCache_get_zero_and_stale_log :
    FactorialCache.Get FactorialCache.init 0 = .ok (0, FactorialCache.init)
    ∧ (0 : ℝ) ≠ 1
    ∧ FactorialCache.GetLog FactorialCache.init 7
        = .ok (Real.log 5040, afterGetLog7)
    ∧ FactorialCache.GetLog afterGetLog7 5 = .ok (Real.log 5040, afterGetLog7)
    ∧ Real.log 5040 ≠ Real.log 120 := by
  refine ⟨?_, by norm_num, factorialCache_getLog_seven, ?_, ?_⟩
  · norm_num [FactorialCache.Get, FactorialCache.init]
  · rw [FactorialCache.GetLog]
    norm_num [afterGetLog7, List.replicate_succ]
  · exact ne_of_gt (Real.log_lt_log (by norm_num) (by norm_num))

/-- Witness for C10 at μ = 3, σ = 2, x = 1. -/
theorem gaussianProbability_ignores_parameters_witness :
    (0 : ℝ) < 2
    ∧ GaussianDistribution.Probability (GaussianDistribution.construct 3 2 none) 1
        = 1 / Real.sqrt (2 * pi) * Real.exp (-(1 ^ 2) / 2) :=
  ⟨by norm_num, (gaussianProbability_ignores_parameters 3 2 1 none (by norm_num)).1⟩
